import Mathlib

/-!
# uvc2http: the process glue of `AppMain.cpp`

A shallow embedding of `src/AppMain.cpp`: the stop flag with its signal
handler and its polled predicate, the camera calibration callback
`SetupCamera`, and `main`.

The code talks to the outside world (the V4L2 driver through `ioctl`, the
process signal table through `signal`, the tracer, the command-line parser and
the streaming core).  Every such call is recorded, in program order, as an
`Event` in the trace of the `World`; what the outside world answers is given
by an `Env`, whose answers may depend on the whole history and on the
arguments of the call.

The trace holds the calls made by the code of `AppMain.cpp` itself.  What the
streaming core does while it runs (it invokes the setup callback and polls the
stop predicate it was given) lies behind the one `StreamFunc` event and its
result.  Integers of C type `int` are `Int`: the code compares them with
constants and passes them on, and does no arithmetic on them.
-/

namespace Uvc2Http

/-! ## Data model -/

/-- Control identifiers of `linux/v4l2-controls.h` used by `SetupCamera`. -/
inductive ControlId where
  | V4L2_CID_FOCUS_AUTO
  | V4L2_CID_FOCUS_ABSOLUTE
  | V4L2_CID_EXPOSURE_AUTO
  | V4L2_CID_EXPOSURE_AUTO_PRIORITY
  | V4L2_CID_EXPOSURE_ABSOLUTE
  | V4L2_CID_GAIN
  | zero
  deriving DecidableEq

/-- Control classes of `linux/videodev2.h`; `zero` is the value a
`= {0}` initialiser leaves in the field. -/
inductive ControlClass where
  | V4L2_CTRL_CLASS_USER
  | zero
  deriving DecidableEq

/-- Enumerator `V4L2_EXPOSURE_MANUAL` of `enum v4l2_exposure_auto_type`
(`V4L2_EXPOSURE_AUTO = 0`, `V4L2_EXPOSURE_MANUAL = 1`). -/
def V4L2_EXPOSURE_MANUAL : Int := 1

/-- The fields of `struct v4l2_ext_control` the program touches. -/
structure v4l2_ext_control where
  id : ControlId
  size : Int
  value : Int
  deriving DecidableEq

/-- The fields of `struct v4l2_ext_controls`; `controls` is the single
control the pointer field refers to. -/
structure v4l2_ext_controls where
  ctrl_class : ControlClass
  count : Nat
  error_idx : Nat
  controls : v4l2_ext_control
  deriving DecidableEq

/-- The fields of `struct v4l2_control`. -/
structure v4l2_control where
  id : ControlId
  value : Int
  deriving DecidableEq

/-- The two ioctl requests issued by `SetupCamera`, with their argument. -/
inductive IoctlRequest where
  | VIDIOC_S_EXT_CTRLS (arg : v4l2_ext_controls)
  | VIDIOC_S_CTRL (arg : v4l2_control)
  deriving DecidableEq

/-- Signal numbers passed to `signal` by `main`. -/
inductive Signum where
  | SIGPIPE
  | SIGINT
  | SIGTERM
  deriving DecidableEq

/-- Values of type `sighandler_t`: the special dispositions, the error
value returned by `signal`, the handler of this file, and any other address. -/
inductive sighandler_t where
  | SIG_DFL
  | SIG_IGN
  | SIG_ERR
  | sigIntHandler
  | other (addr : Nat)
  deriving DecidableEq

/-- Values of the function pointer `GrabberCfg.SetupCamera`. -/
inductive CameraSetupFn where
  | null
  | SetupCamera
  | other (addr : Nat)
  deriving DecidableEq

/-- Values of the stop predicate handed to `UvcStreamer::StreamFunc`. -/
inductive StopPredicate where
  | IsSigIntRaised
  | other (addr : Nat)
  deriving DecidableEq

/-- The grabber part of the configuration (`Config.h`): the setup callback
and the remaining fields, of a type `γ` the program never looks into. -/
structure GrabberCfg (γ : Type) where
  SetupCamera : CameraSetupFn
  others : γ

/-- The configuration `UvcStreamerCfg` (`Config.h`): the validity flag, the
grabber configuration and the remaining fields, of a type `κ` the program never
looks into. -/
structure UvcStreamerCfg (γ κ : Type) where
  IsValid : Bool
  GrabberCfg : GrabberCfg γ
  others : κ

/-- One call that leaves `AppMain.cpp`, with its arguments and the answer. -/
inductive Event (γ κ : Type) where
  | ioctl (fd : Int) (request : IoctlRequest) (result : Int)
  | log (format : String) (args : List Int)
  | signal (signum : Signum) (handler : sighandler_t) (result : sighandler_t)
  | PrintUsage
  | StreamFunc (config : UvcStreamerCfg γ κ) (shouldExit : StopPredicate) (result : Int)

/-- The state the code of `AppMain.cpp` runs in: the file-level atomic flag
and the calls made so far, oldest first. -/
structure World (γ κ : Type) where
  NeedToStopWorkFunc : Bool
  trace : List (Event γ κ)

/-- The state at process start: `NeedToStopWorkFunc(false)`, nothing called. -/
def World.initial (γ κ : Type) : World γ κ :=
  { NeedToStopWorkFunc := false, trace := [] }

/-- The answers of the outside world.  Each answer may depend on the calls
made so far and on the arguments of the call. -/
structure Env (γ κ : Type) where
  GetConfig : List String → UvcStreamerCfg γ κ
  ioctl : List (Event γ κ) → Int → IoctlRequest → Int
  signal : List (Event γ κ) → Signum → sighandler_t → sighandler_t
  StreamFunc : List (Event γ κ) → UvcStreamerCfg γ κ → StopPredicate → Int

variable {γ κ : Type}

/-! ## External calls -/

/-- A call `Tracer::Log(format, args...)`. -/
def Tracer.Log (format : String) (args : List Int) (w : World γ κ) : World γ κ :=
  { w with trace := w.trace ++ [Event.log format args] }

/-- A call `ioctl(fd, request, &arg)`: the result and the state after it. -/
def ioctl (env : Env γ κ) (fd : Int) (request : IoctlRequest) (w : World γ κ) :
    Int × World γ κ :=
  let result := env.ioctl w.trace fd request
  (result, { w with trace := w.trace ++ [Event.ioctl fd request result] })

/-- A call `signal(signum, handler)`: the result and the state after it. -/
def signal (env : Env γ κ) (signum : Signum) (handler : sighandler_t) (w : World γ κ) :
    sighandler_t × World γ κ :=
  let result := env.signal w.trace signum handler
  (result, { w with trace := w.trace ++ [Event.signal signum handler result] })

/-- A call `PrintUsage()`. -/
def PrintUsage (w : World γ κ) : World γ κ :=
  { w with trace := w.trace ++ [Event.PrintUsage] }

/-- A call `UvcStreamer::StreamFunc(config, shouldExit)`: the result and the
state after it; the configuration is handed over read-only.  The call is one
event: what the streamer does before it returns, its calls of the setup
callback and of the stop predicate included, is not part of the trace, which
holds the calls `main` makes itself. -/
def StreamFunc (env : Env γ κ) (config : UvcStreamerCfg γ κ) (shouldExit : StopPredicate)
    (w : World γ κ) : Int × World γ κ :=
  let result := env.StreamFunc w.trace config shouldExit
  (result, { w with trace := w.trace ++ [Event.StreamFunc config shouldExit result] })

/-! ## The code of `AppMain.cpp` -/

/-- `void sigIntHandler(int sig)`. -/
def sigIntHandler (_sig : Int) (w : World γ κ) : World γ κ :=
  let w : World γ κ := Tracer.Log "Interruption....\n" [] w
  { w with NeedToStopWorkFunc := true }

/-- `bool IsSigIntRaised(void)`: the value returned and the state after it. -/
def IsSigIntRaised (w : World γ κ) : Bool × World γ κ :=
  (w.NeedToStopWorkFunc, w)

/-- `bool SetupCamera(int cameraFd)`: the value returned and the state after
it. -/
def SetupCamera (env : Env γ κ) (cameraFd : Int) (w : World γ κ) : Bool × World γ κ :=
  -- Disable auto focus
  let ext_ctrl : v4l2_ext_control := { id := .zero, size := 0, value := 0 }
  let ext_ctrl : v4l2_ext_control := { ext_ctrl with id := .V4L2_CID_FOCUS_AUTO }
  let ext_ctrl : v4l2_ext_control := { ext_ctrl with value := 0 }
  let ext_ctrls : v4l2_ext_controls :=
    { ctrl_class := .zero, count := 0, error_idx := 0, controls := ext_ctrl }
  let ext_ctrls : v4l2_ext_controls := { ext_ctrls with ctrl_class := .V4L2_CTRL_CLASS_USER }
  let ext_ctrls : v4l2_ext_controls := { ext_ctrls with count := 1 }
  let (ioctlResult, w) := ioctl env cameraFd (.VIDIOC_S_EXT_CTRLS ext_ctrls) w
  let w : World γ κ :=
    if ioctlResult ≠ 0 then Tracer.Log "Failed to disable auto focus.\n" [] w else w
  -- Set focus range ~1.2 meter
  let focusValue : Int := 80
  let ext_ctrl : v4l2_ext_control := { id := .zero, size := 0, value := 0 }
  let ext_ctrl : v4l2_ext_control := { ext_ctrl with id := .V4L2_CID_FOCUS_ABSOLUTE }
  let ext_ctrl : v4l2_ext_control := { ext_ctrl with value := focusValue }
  let ext_ctrls : v4l2_ext_controls :=
    { ctrl_class := .zero, count := 0, error_idx := 0, controls := ext_ctrl }
  let ext_ctrls : v4l2_ext_controls := { ext_ctrls with ctrl_class := .V4L2_CTRL_CLASS_USER }
  let ext_ctrls : v4l2_ext_controls := { ext_ctrls with count := 1 }
  let (ioctlResult, w) := ioctl env cameraFd (.VIDIOC_S_EXT_CTRLS ext_ctrls) w
  let w : World γ κ :=
    if ioctlResult ≠ 0 then Tracer.Log "Failed to set focus range.\n" [] w else w
  -- Setting "Exposure, Auto" to "Manual Mode"
  let ext_ctrl : v4l2_ext_control := { id := .zero, size := 0, value := 0 }
  let ext_ctrl : v4l2_ext_control := { ext_ctrl with id := .V4L2_CID_EXPOSURE_AUTO }
  let ext_ctrl : v4l2_ext_control := { ext_ctrl with value := V4L2_EXPOSURE_MANUAL }
  let ext_ctrls : v4l2_ext_controls :=
    { ctrl_class := .zero, count := 0, error_idx := 0, controls := ext_ctrl }
  let ext_ctrls : v4l2_ext_controls := { ext_ctrls with ctrl_class := .V4L2_CTRL_CLASS_USER }
  let ext_ctrls : v4l2_ext_controls := { ext_ctrls with count := 1 }
  let (ioctlResult, w) := ioctl env cameraFd (.VIDIOC_S_EXT_CTRLS ext_ctrls) w
  let w : World γ κ :=
    if ioctlResult ≠ 0 then Tracer.Log "Failed to set 'Exposure, Auto'.\n" [] w else w
  -- Setting "Exposure, Auto Priority" to "0"
  let ext_ctrl : v4l2_ext_control := { id := .zero, size := 0, value := 0 }
  let ext_ctrl : v4l2_ext_control := { ext_ctrl with id := .V4L2_CID_EXPOSURE_AUTO_PRIORITY }
  let ext_ctrl : v4l2_ext_control := { ext_ctrl with value := 0 }
  let ext_ctrls : v4l2_ext_controls :=
    { ctrl_class := .zero, count := 0, error_idx := 0, controls := ext_ctrl }
  let ext_ctrls : v4l2_ext_controls := { ext_ctrls with ctrl_class := .V4L2_CTRL_CLASS_USER }
  let ext_ctrls : v4l2_ext_controls := { ext_ctrls with count := 1 }
  let (ioctlResult, w) := ioctl env cameraFd (.VIDIOC_S_EXT_CTRLS ext_ctrls) w
  let w : World γ κ :=
    if ioctlResult ≠ 0 then Tracer.Log "Failed to disable 'Exposure, Auto Priority'.\n" [] w
    else w
  -- Setting "Exposure, Absolute" to "300"
  let exposureAbsolute : Int := 300
  let ext_ctrl : v4l2_ext_control := { id := .zero, size := 0, value := 0 }
  let ext_ctrl : v4l2_ext_control := { ext_ctrl with id := .V4L2_CID_EXPOSURE_ABSOLUTE }
  let ext_ctrl : v4l2_ext_control := { ext_ctrl with value := exposureAbsolute }
  let ext_ctrls : v4l2_ext_controls :=
    { ctrl_class := .zero, count := 0, error_idx := 0, controls := ext_ctrl }
  let ext_ctrls : v4l2_ext_controls := { ext_ctrls with ctrl_class := .V4L2_CTRL_CLASS_USER }
  let ext_ctrls : v4l2_ext_controls := { ext_ctrls with count := 1 }
  let (ioctlResult, w) := ioctl env cameraFd (.VIDIOC_S_EXT_CTRLS ext_ctrls) w
  let w : World γ κ :=
    if ioctlResult ≠ 0 then Tracer.Log "Failed to set 'Exposure, Absolute'.\n" [] w else w
  -- Set gain
  let gain : Int := 32
  let control : v4l2_control := { id := .zero, value := 0 }
  let control : v4l2_control := { control with id := .V4L2_CID_GAIN }
  let control : v4l2_control := { control with value := gain }
  let (ioctlResult, w) := ioctl env cameraFd (.VIDIOC_S_CTRL control) w
  let w : World γ κ :=
    if ioctlResult ≠ 0 then Tracer.Log "Failed to set sensor gain.\n" [] w
    else Tracer.Log "Set sensor gain to %d.\n" [gain] w
  (true, w)

/-- What `main` leaves behind: the value it returns and the final value of
its local variable `config`. -/
structure MainResult (γ κ : Type) where
  ret : Int
  config : UvcStreamerCfg γ κ

/-- `int main(int argc, char **argv)`: what it leaves behind and the state
after it. -/
def main (env : Env γ κ) (argv : List String) (w : World γ κ) :
    MainResult γ κ × World γ κ :=
  let config := env.GetConfig argv
  if !config.IsValid then
    let w : World γ κ := PrintUsage w
    ({ ret := -1, config := config }, w)
  else
    let config : UvcStreamerCfg γ κ :=
      { config with GrabberCfg := { config.GrabberCfg with SetupCamera := .SetupCamera } }
    -- Ignore SIGPIPE (OS sends it in case of transmitting to a closed TCP socket)
    let (old, w) := signal env .SIGPIPE .SIG_IGN w
    let w : World γ κ :=
      if old = .SIG_ERR then Tracer.Log "Failed to setup SIGPIPE handler.\n" [] w else w
    -- Register handler for CTRL+C
    let (old, w) := signal env .SIGINT .sigIntHandler w
    let w : World γ κ :=
      if old = .SIG_ERR then Tracer.Log "Failed to setup SIGINT handler.\n" [] w else w
    -- Register handler for termination
    let (old, w) := signal env .SIGTERM .sigIntHandler w
    let w : World γ κ :=
      if old = .SIG_ERR then Tracer.Log "Failed to setup SIGTERM handler.\n" [] w else w
    let w : World γ κ := Tracer.Log "Starting streaming...\n" [] w
    let (res, w) := StreamFunc env config .IsSigIntRaised w
    let w : World γ κ := Tracer.Log "Streaming stopped with code %d.\n" [res] w
    ({ ret := res, config := config }, w)

/-! ## Reading a trace -/

/-- The ioctl calls of a trace: descriptor and request, in order. -/
def ioctlCalls (t : List (Event γ κ)) : List (Int × IoctlRequest) :=
  t.filterMap fun e => match e with
    | .ioctl fd request _ => some (fd, request)
    | _ => none

/-- The results of the ioctl calls of a trace, in order. -/
def ioctlResults (t : List (Event γ κ)) : List Int :=
  t.filterMap fun e => match e with
    | .ioctl _ _ result => some result
    | _ => none

/-- Modelled from the spec: `Tracer::Log` is declared in `Tracer.h`, which is
not among the sources.  Its call sites hand it a `printf` format with `int`
arguments and the specified messages are the formatted text, so a `%d` stands
for the next argument in decimal and every other character for itself. -/
def Tracer.format : List Char → List Int → List Char
  | '%' :: 'd' :: rest, a :: args => (toString a).data ++ Tracer.format rest args
  | c :: rest, args => c :: Tracer.format rest args
  | [], _ => []

/-- The text a call `Tracer::Log(format, args...)` writes. -/
def Tracer.render (format : String) (args : List Int) : String :=
  String.mk (Tracer.format format.data args)

/-- The texts logged in a trace, in order. -/
def logged (t : List (Event γ κ)) : List String :=
  t.filterMap fun e => match e with
    | .log format args => some (Tracer.render format args)
    | _ => none

/-- The signal registrations of a trace: signal and requested disposition, in
order. -/
def signalCalls (t : List (Event γ κ)) : List (Signum × sighandler_t) :=
  t.filterMap fun e => match e with
    | .signal signum handler _ => some (signum, handler)
    | _ => none

/-- The results of the signal registrations of a trace, in order. -/
def signalResults (t : List (Event γ κ)) : List sighandler_t :=
  t.filterMap fun e => match e with
    | .signal _ _ result => some result
    | _ => none

/-- The calls of `UvcStreamer::StreamFunc` of a trace: configuration and stop
predicate, in order. -/
def streamCalls (t : List (Event γ κ)) : List (UvcStreamerCfg γ κ × StopPredicate) :=
  t.filterMap fun e => match e with
    | .StreamFunc config shouldExit _ => some (config, shouldExit)
    | _ => none

/-- The results of the calls of `UvcStreamer::StreamFunc` of a trace, in
order. -/
def streamResults (t : List (Event γ κ)) : List Int :=
  t.filterMap fun e => match e with
    | .StreamFunc _ _ result => some result
    | _ => none

/-- A signal registration or the start of streaming. -/
inductive Milestone where
  | registration (signum : Signum) (handler : sighandler_t)
  | streaming
  deriving DecidableEq

/-- The signal registrations and the streaming calls of a trace, in order. -/
def milestones (t : List (Event γ κ)) : List Milestone :=
  t.filterMap fun e => match e with
    | .signal signum handler _ => some (.registration signum handler)
    | .StreamFunc _ _ _ => some .streaming
    | _ => none

/-- The answer recorded in the call `e`, made after the calls `hist`, is
the answer of the outside world `env` to that call; a call without an answer
passes. -/
def answers (env : Env γ κ) (hist : List (Event γ κ)) : Event γ κ → Bool
  | .ioctl fd request result => decide (result = env.ioctl hist fd request)
  | .signal signum handler result => decide (result = env.signal hist signum handler)
  | .StreamFunc config shouldExit result =>
    decide (result = env.StreamFunc hist config shouldExit)
  | .log _ _ => true
  | .PrintUsage => true

/-- The answers recorded in the calls `emitted`, made after the calls `hist`,
are the answers of the outside world `env`: the result of every `ioctl`,
`signal` and `StreamFunc` call is what `env` answers to that call after the
calls made before it. -/
def answeredBy (env : Env γ κ) : List (Event γ κ) → List (Event γ κ) → Bool
  | _, [] => true
  | hist, e :: rest => answers env hist e && answeredBy env (hist ++ [e]) rest

/-! ## Interleavings of the handler and the predicate -/

/-- One step of a run of the stop flag: the signal handler is invoked with
some signal number, or the predicate is polled. -/
inductive Step where
  | sigIntHandler (sig : Int)
  | IsSigIntRaised
  deriving DecidableEq

/-- The state after one step. -/
def Step.run (step : Step) (w : World γ κ) : World γ κ :=
  match step with
  | .sigIntHandler sig => Uvc2Http.sigIntHandler sig w
  | .IsSigIntRaised => (Uvc2Http.IsSigIntRaised w).2

/-- The state after a sequence of steps, first step first. -/
def runSteps (steps : List Step) (w : World γ κ) : World γ κ :=
  steps.foldl (fun w step => step.run w) w

/-- What a call of `IsSigIntRaised` returns after the steps `steps` from the
initial state. -/
def pollAfter (γ κ : Type) (steps : List Step) : Bool :=
  (IsSigIntRaised (runSteps steps (World.initial γ κ))).1

/-! ## Expected behaviour, in the words of the specification -/

/-- The extended control-set request that sets control `id` to `value`, with
control class `V4L2_CTRL_CLASS_USER` and count 1. -/
def extRequest (id : ControlId) (value : Int) : IoctlRequest :=
  .VIDIOC_S_EXT_CTRLS
    { ctrl_class := .V4L2_CTRL_CLASS_USER, count := 1, error_idx := 0,
      controls := { id := id, size := 0, value := value } }

/-- The six control-set requests of the calibration, in order. -/
def calibrationRequests : List IoctlRequest :=
  [ extRequest .V4L2_CID_FOCUS_AUTO 0,
    extRequest .V4L2_CID_FOCUS_ABSOLUTE 80,
    extRequest .V4L2_CID_EXPOSURE_AUTO V4L2_EXPOSURE_MANUAL,
    extRequest .V4L2_CID_EXPOSURE_AUTO_PRIORITY 0,
    extRequest .V4L2_CID_EXPOSURE_ABSOLUTE 300,
    .VIDIOC_S_CTRL { id := .V4L2_CID_GAIN, value := 32 } ]

/-- The five failure messages of the extended requests, in request order. -/
def failureMessages : List String :=
  [ "Failed to disable auto focus.",
    "Failed to set focus range.",
    "Failed to set 'Exposure, Auto'.",
    "Failed to disable 'Exposure, Auto Priority'.",
    "Failed to set 'Exposure, Absolute'." ]

/-- The messages the calibration is to log when its six requests return
`r1`, ..., `r6`: the failure message of every extended request that returned
non-zero, in request order, then the outcome of the gain request. -/
def calibrationMessages (r1 r2 r3 r4 r5 r6 : Int) : List String :=
  ((failureMessages.zip [r1, r2, r3, r4, r5]).filter fun p => p.2 ≠ 0).map Prod.fst ++
    [if r6 ≠ 0 then "Failed to set sensor gain." else "Set sensor gain to 32."]

/-- The tracer is handed every message with its line end. -/
def withLineEnd (m : String) : String := m ++ "\n"

/-- A logged text that reports a failed control-set request. -/
def isFailureLine (text : String) : Bool :=
  text ∈ (failureMessages ++ ["Failed to set sensor gain."]).map withLineEnd

/-- The three signal registrations of `main`, in order. -/
def registrations : List (Signum × sighandler_t) :=
  [ (.SIGPIPE, .SIG_IGN), (.SIGINT, .sigIntHandler), (.SIGTERM, .sigIntHandler) ]

/-! ## The calls of whole runs -/

/-- The calls of one calibration run whose six requests return `r1`, ...,
`r6`. -/
def calibrationTrace (fd : Int) (r1 r2 r3 r4 r5 r6 : Int) : List (Event γ κ) :=
  [Event.ioctl fd (extRequest .V4L2_CID_FOCUS_AUTO 0) r1] ++
  (if r1 ≠ 0 then [Event.log "Failed to disable auto focus.\n" []] else []) ++
  [Event.ioctl fd (extRequest .V4L2_CID_FOCUS_ABSOLUTE 80) r2] ++
  (if r2 ≠ 0 then [Event.log "Failed to set focus range.\n" []] else []) ++
  [Event.ioctl fd (extRequest .V4L2_CID_EXPOSURE_AUTO V4L2_EXPOSURE_MANUAL) r3] ++
  (if r3 ≠ 0 then [Event.log "Failed to set 'Exposure, Auto'.\n" []] else []) ++
  [Event.ioctl fd (extRequest .V4L2_CID_EXPOSURE_AUTO_PRIORITY 0) r4] ++
  (if r4 ≠ 0 then [Event.log "Failed to disable 'Exposure, Auto Priority'.\n" []] else []) ++
  [Event.ioctl fd (extRequest .V4L2_CID_EXPOSURE_ABSOLUTE 300) r5] ++
  (if r5 ≠ 0 then [Event.log "Failed to set 'Exposure, Absolute'.\n" []] else []) ++
  [Event.ioctl fd (.VIDIOC_S_CTRL { id := .V4L2_CID_GAIN, value := 32 }) r6] ++
  [if r6 ≠ 0 then Event.log "Failed to set sensor gain.\n" []
   else Event.log "Set sensor gain to %d.\n" [32]]

/-- The configuration `main` hands to the streamer: the parsed one with the
setup callback installed. -/
def installed (config : UvcStreamerCfg γ κ) : UvcStreamerCfg γ κ :=
  { config with GrabberCfg := { config.GrabberCfg with SetupCamera := .SetupCamera } }

/-- The calls of one run of `main` on a valid configuration whose three
registrations return `o1`, `o2`, `o3` and whose streaming returns `res`. -/
def streamingTrace (config : UvcStreamerCfg γ κ) (o1 o2 o3 : sighandler_t) (res : Int) :
    List (Event γ κ) :=
  [Event.signal .SIGPIPE .SIG_IGN o1] ++
  (if o1 = .SIG_ERR then [Event.log "Failed to setup SIGPIPE handler.\n" []] else []) ++
  [Event.signal .SIGINT .sigIntHandler o2] ++
  (if o2 = .SIG_ERR then [Event.log "Failed to setup SIGINT handler.\n" []] else []) ++
  [Event.signal .SIGTERM .sigIntHandler o3] ++
  (if o3 = .SIG_ERR then [Event.log "Failed to setup SIGTERM handler.\n" []] else []) ++
  [Event.log "Starting streaming...\n" []] ++
  [Event.StreamFunc (installed config) .IsSigIntRaised res] ++
  [Event.log "Streaming stopped with code %d.\n" [res]]

/-! ## A sample outside world -/

/-- A sample outside world over a configuration without further fields: the
command line is valid when it has arguments, the driver refuses the absolute
focus, the registration for `SIGINT` fails, and streaming ends with 0. -/
def sampleEnv : Env Unit Unit where
  GetConfig := fun argv =>
    { IsValid := !argv.isEmpty, GrabberCfg := { SetupCamera := .null, others := () },
      others := () }
  ioctl := fun _ _ request =>
    if request = extRequest .V4L2_CID_FOCUS_ABSOLUTE 80 then -1 else 0
  signal := fun _ signum _ => if signum = .SIGINT then .SIG_ERR else .SIG_DFL
  StreamFunc := fun _ _ _ => 0

/-! ## Lemmas on traces -/

theorem trace_ite_Log (c : Prop) [Decidable c] (format : String) (args : List Int)
    (w : World γ κ) :
    (if c then Tracer.Log format args w else w).trace =
      w.trace ++ (if c then [Event.log format args] else []) := by
  split_ifs <;> simp [Tracer.Log]

theorem trace_ite_Log_Log (c : Prop) [Decidable c] (f g : String) (a b : List Int)
    (w : World γ κ) :
    (if c then Tracer.Log f a w else Tracer.Log g b w).trace =
      w.trace ++ [if c then Event.log f a else Event.log g b] := by
  split_ifs <;> simp [Tracer.Log]

theorem flag_ite_Log (c : Prop) [Decidable c] (format : String) (args : List Int)
    (w : World γ κ) :
    (if c then Tracer.Log format args w else w).NeedToStopWorkFunc = w.NeedToStopWorkFunc := by
  split_ifs <;> simp [Tracer.Log]

theorem flag_ite_Log_Log (c : Prop) [Decidable c] (f g : String) (a b : List Int)
    (w : World γ κ) :
    (if c then Tracer.Log f a w else Tracer.Log g b w).NeedToStopWorkFunc =
      w.NeedToStopWorkFunc := by
  split_ifs <;> simp [Tracer.Log]

theorem ioctlCalls_append (s t : List (Event γ κ)) :
    ioctlCalls (s ++ t) = ioctlCalls s ++ ioctlCalls t := by
  simp [ioctlCalls]

theorem ioctlResults_append (s t : List (Event γ κ)) :
    ioctlResults (s ++ t) = ioctlResults s ++ ioctlResults t := by
  simp [ioctlResults]

theorem logged_append (s t : List (Event γ κ)) :
    logged (s ++ t) = logged s ++ logged t := by
  simp [logged]

/-- Every run of `SetupCamera` appends one calibration trace and leaves the
stop flag alone. -/
theorem SetupCamera_trace (env : Env γ κ) (cameraFd : Int) (w : World γ κ) :
    ∃ r1 r2 r3 r4 r5 r6 : Int,
      (SetupCamera env cameraFd w).2.trace =
        w.trace ++ calibrationTrace cameraFd r1 r2 r3 r4 r5 r6 ∧
      (SetupCamera env cameraFd w).2.NeedToStopWorkFunc = w.NeedToStopWorkFunc := by
  simp only [SetupCamera, ioctl, trace_ite_Log, trace_ite_Log_Log, flag_ite_Log,
    flag_ite_Log_Log, calibrationTrace, extRequest, ← List.append_assoc]
  generalize env.ioctl _ _ _ = x1
  generalize env.ioctl _ _ _ = x2
  generalize env.ioctl _ _ _ = x3
  generalize env.ioctl _ _ _ = x4
  generalize env.ioctl _ _ _ = x5
  generalize env.ioctl _ _ _ = x6
  exact ⟨x1, x2, x3, x4, x5, x6, rfl, trivial⟩

theorem ioctlCalls_ioctl (fd : Int) (request : IoctlRequest) (result : Int) :
    ioctlCalls [(Event.ioctl fd request result : Event γ κ)] = [(fd, request)] := rfl

theorem ioctlCalls_ite_log (c : Prop) [Decidable c] (format : String) (args : List Int) :
    ioctlCalls (if c then [(Event.log format args : Event γ κ)] else []) = [] := by
  split_ifs <;> rfl

theorem ioctlCalls_ite_log_log (c : Prop) [Decidable c] (f g : String) (a b : List Int) :
    ioctlCalls [if c then (Event.log f a : Event γ κ) else Event.log g b] = [] := by
  split_ifs <;> rfl

theorem ioctlResults_ioctl (fd : Int) (request : IoctlRequest) (result : Int) :
    ioctlResults [(Event.ioctl fd request result : Event γ κ)] = [result] := rfl

theorem ioctlResults_ite_log (c : Prop) [Decidable c] (format : String) (args : List Int) :
    ioctlResults (if c then [(Event.log format args : Event γ κ)] else []) = [] := by
  split_ifs <;> rfl

theorem ioctlResults_ite_log_log (c : Prop) [Decidable c] (f g : String) (a b : List Int) :
    ioctlResults [if c then (Event.log f a : Event γ κ) else Event.log g b] = [] := by
  split_ifs <;> rfl

theorem ioctlCalls_calibrationTrace (fd : Int) (r1 r2 r3 r4 r5 r6 : Int) :
    ioctlCalls (calibrationTrace fd r1 r2 r3 r4 r5 r6 : List (Event γ κ)) =
      calibrationRequests.map fun request => (fd, request) := by
  simp only [calibrationTrace, ioctlCalls_append, ioctlCalls_ioctl, ioctlCalls_ite_log,
    ioctlCalls_ite_log_log]
  rfl

theorem ioctlResults_calibrationTrace (fd : Int) (r1 r2 r3 r4 r5 r6 : Int) :
    ioctlResults (calibrationTrace fd r1 r2 r3 r4 r5 r6 : List (Event γ κ)) =
      [r1, r2, r3, r4, r5, r6] := by
  simp only [calibrationTrace, ioctlResults_append, ioctlResults_ioctl, ioctlResults_ite_log,
    ioctlResults_ite_log_log]
  rfl

theorem logged_ioctl (fd : Int) (request : IoctlRequest) (result : Int) :
    logged [(Event.ioctl fd request result : Event γ κ)] = [] := rfl

theorem logged_ite_log (c : Prop) [Decidable c] (format : String) (args : List Int) :
    logged (if c then [(Event.log format args : Event γ κ)] else []) =
      if c then [Tracer.render format args] else [] := by
  split_ifs <;> rfl

theorem logged_ite_log_log (c : Prop) [Decidable c] (f g : String) (a b : List Int) :
    logged [if c then (Event.log f a : Event γ κ) else Event.log g b] =
      [if c then Tracer.render f a else Tracer.render g b] := by
  split_ifs <;> rfl

theorem map_ite_singleton {α β : Type} (f : α → β) (c : Prop) [Decidable c] (a : α) :
    List.map f (if c then [a] else []) = if c then [f a] else [] := by
  split_ifs <;> rfl

theorem apply_ite_withLineEnd (c : Prop) [Decidable c] (a b : String) :
    withLineEnd (if c then a else b) = if c then withLineEnd a else withLineEnd b := by
  split_ifs <;> rfl

theorem failed_filter_cons (m : String) (r : Int) (rest : List (String × Int)) :
    (((m, r) :: rest).filter fun p => p.2 ≠ 0).map Prod.fst =
      (if r ≠ 0 then [m] else []) ++ (rest.filter fun p => p.2 ≠ 0).map Prod.fst := by
  by_cases h : r = 0 <;> simp [List.filter_cons, h]

theorem render_focus_auto :
    Tracer.render "Failed to disable auto focus.\n" [] = withLineEnd "Failed to disable auto focus." := by
  decide

theorem render_focus_range :
    Tracer.render "Failed to set focus range.\n" [] = withLineEnd "Failed to set focus range." := by
  decide

theorem render_exposure_auto :
    Tracer.render "Failed to set 'Exposure, Auto'.\n" [] = withLineEnd "Failed to set 'Exposure, Auto'." := by
  decide

theorem render_exposure_priority :
    Tracer.render "Failed to disable 'Exposure, Auto Priority'.\n" [] = withLineEnd "Failed to disable 'Exposure, Auto Priority'." := by
  decide

theorem render_exposure_absolute :
    Tracer.render "Failed to set 'Exposure, Absolute'.\n" [] = withLineEnd "Failed to set 'Exposure, Absolute'." := by
  decide

theorem render_gain_failed :
    Tracer.render "Failed to set sensor gain.\n" [] = withLineEnd "Failed to set sensor gain." := by
  decide

theorem render_gain_set :
    Tracer.render "Set sensor gain to %d.\n" [32] = withLineEnd "Set sensor gain to 32." := by
  decide

theorem logged_calibrationTrace (fd : Int) (r1 r2 r3 r4 r5 r6 : Int) :
    logged (calibrationTrace fd r1 r2 r3 r4 r5 r6 : List (Event γ κ)) =
      (calibrationMessages r1 r2 r3 r4 r5 r6).map withLineEnd := by
  simp only [calibrationTrace, logged_append, logged_ioctl, logged_ite_log,
    logged_ite_log_log, calibrationMessages, failureMessages, List.zip_cons_cons,
    failed_filter_cons, List.map_append, map_ite_singleton, List.map_cons, List.map_nil,
    apply_ite_withLineEnd, List.zip_nil_right, List.filter_nil, List.append_nil,
    List.nil_append, List.append_assoc, render_focus_auto, render_focus_range, render_exposure_auto,
    render_exposure_priority, render_exposure_absolute, render_gain_failed, render_gain_set]

theorem failure_count_ite (c : Prop) [Decidable c] (text : String)
    (ht : isFailureLine text = true) :
    ((if c then [text] else []).filter isFailureLine).length = if c then 1 else 0 := by
  split_ifs <;> simp [ht]

theorem failure_count_gain (c : Prop) [Decidable c] :
    ([if c then withLineEnd "Failed to set sensor gain."
        else withLineEnd "Set sensor gain to 32."].filter isFailureLine).length =
      if c then 1 else 0 := by
  split_ifs <;> decide

theorem failed_count_cons (r : Int) (rest : List Int) :
    ((r :: rest).filter fun r => r ≠ 0).length =
      (if r ≠ 0 then 1 else 0) + (rest.filter fun r => r ≠ 0).length := by
  by_cases h : r = 0 <;> simp [List.filter_cons, h, Nat.add_comm]

theorem failure_count_calibrationMessages (r1 r2 r3 r4 r5 r6 : Int) :
    (((calibrationMessages r1 r2 r3 r4 r5 r6).map withLineEnd).filter isFailureLine).length =
      ([r1, r2, r3, r4, r5, r6].filter fun r => r ≠ 0).length := by
  simp only [calibrationMessages, failureMessages, List.zip_cons_cons, failed_filter_cons,
    List.zip_nil_right, List.filter_nil, List.map_nil, List.append_nil, List.map_append,
    map_ite_singleton, List.map_cons, apply_ite_withLineEnd, List.filter_append,
    List.length_append, failure_count_gain, failed_count_cons, List.length_nil, Nat.add_zero]
  rw [failure_count_ite _ _ (by decide), failure_count_ite _ _ (by decide),
    failure_count_ite _ _ (by decide), failure_count_ite _ _ (by decide),
    failure_count_ite _ _ (by decide)]
  simp only [Nat.add_assoc]

theorem flag_runSteps (steps : List Step) (w : World γ κ) :
    (runSteps steps w).NeedToStopWorkFunc = true ↔
      w.NeedToStopWorkFunc = true ∨ ∃ sig, Step.sigIntHandler sig ∈ steps := by
  induction steps generalizing w with
  | nil => simp [runSteps]
  | cons step rest ih =>
    have hrun : runSteps (step :: rest) w = runSteps rest (step.run w) := rfl
    rw [hrun, ih]
    cases step with
    | sigIntHandler sig =>
      simp only [Step.run, sigIntHandler, true_or, true_iff]
      exact Or.inr ⟨sig, List.mem_cons_self _ _⟩
    | IsSigIntRaised =>
      simp [Step.run, IsSigIntRaised]

theorem trace_Log (format : String) (args : List Int) (w : World γ κ) :
    (Tracer.Log format args w).trace = w.trace ++ [Event.log format args] := rfl

theorem flag_Log (format : String) (args : List Int) (w : World γ κ) :
    (Tracer.Log format args w).NeedToStopWorkFunc = w.NeedToStopWorkFunc := rfl

/-- Every run of `main` on a valid configuration appends one streaming trace,
returns what the streamer returned and keeps the installed configuration. -/
theorem main_valid (env : Env γ κ) (argv : List String) (w : World γ κ)
    (hv : (env.GetConfig argv).IsValid = true) :
    ∃ (o1 o2 o3 : sighandler_t) (res : Int),
      (main env argv w).2.trace =
        w.trace ++ streamingTrace (env.GetConfig argv) o1 o2 o3 res ∧
      (main env argv w).1.ret = res ∧
      (main env argv w).1.config = installed (env.GetConfig argv) ∧
      (main env argv w).2.NeedToStopWorkFunc = w.NeedToStopWorkFunc := by
  simp only [main, hv, signal, StreamFunc, trace_ite_Log, trace_Log, flag_ite_Log, flag_Log,
    streamingTrace, installed, Bool.not_true, Bool.false_eq_true, if_false,
    ← List.append_assoc]
  generalize env.signal _ _ _ = x1
  generalize env.signal _ _ _ = x2
  generalize env.signal _ _ _ = x3
  generalize env.StreamFunc _ _ _ = res
  exact ⟨x1, x2, x3, res, rfl, rfl, trivial, trivial⟩

/-- A run of `main` on an invalid configuration. -/
theorem main_invalid (env : Env γ κ) (argv : List String) (w : World γ κ)
    (hv : (env.GetConfig argv).IsValid = false) :
    main env argv w =
      ({ ret := -1, config := env.GetConfig argv },
        { w with trace := w.trace ++ [Event.PrintUsage] }) := by
  simp [main, hv, PrintUsage]

theorem signalCalls_append (s t : List (Event γ κ)) :
    signalCalls (s ++ t) = signalCalls s ++ signalCalls t := by
  simp [signalCalls]

theorem signalResults_append (s t : List (Event γ κ)) :
    signalResults (s ++ t) = signalResults s ++ signalResults t := by
  simp [signalResults]

theorem streamCalls_append (s t : List (Event γ κ)) :
    streamCalls (s ++ t) = streamCalls s ++ streamCalls t := by
  simp [streamCalls]

theorem streamResults_append (s t : List (Event γ κ)) :
    streamResults (s ++ t) = streamResults s ++ streamResults t := by
  simp [streamResults]

theorem milestones_append (s t : List (Event γ κ)) :
    milestones (s ++ t) = milestones s ++ milestones t := by
  simp [milestones]

theorem streamCalls_streamingTrace (config : UvcStreamerCfg γ κ) (o1 o2 o3 : sighandler_t)
    (res : Int) :
    streamCalls (streamingTrace config o1 o2 o3 res) =
      [(installed config, StopPredicate.IsSigIntRaised)] := by
  simp only [streamingTrace]
  split_ifs <;> rfl

theorem streamResults_streamingTrace (config : UvcStreamerCfg γ κ) (o1 o2 o3 : sighandler_t)
    (res : Int) :
    streamResults (streamingTrace config o1 o2 o3 res) = [res] := by
  simp only [streamingTrace]
  split_ifs <;> rfl

theorem milestones_streamingTrace (config : UvcStreamerCfg γ κ) (o1 o2 o3 : sighandler_t)
    (res : Int) :
    milestones (streamingTrace config o1 o2 o3 res) =
      registrations.map (fun r => Milestone.registration r.1 r.2) ++ [Milestone.streaming] := by
  simp only [streamingTrace]
  split_ifs <;> rfl

theorem answeredBy_append (env : Env γ κ) (hist s t : List (Event γ κ)) :
    answeredBy env hist (s ++ t) = (answeredBy env hist s && answeredBy env (hist ++ s) t) := by
  induction s generalizing hist with
  | nil => simp [answeredBy]
  | cons e rest ih =>
    have hcons : hist ++ e :: rest = (hist ++ [e]) ++ rest := by simp
    rw [List.cons_append, answeredBy, answeredBy, ih, Bool.and_assoc, hcons]

theorem answeredBy_ioctl (env : Env γ κ) (hist : List (Event γ κ)) (fd : Int)
    (request : IoctlRequest) :
    answeredBy env hist [Event.ioctl fd request (env.ioctl hist fd request)] = true := by
  simp [answeredBy, answers]

theorem answeredBy_signal (env : Env γ κ) (hist : List (Event γ κ)) (signum : Signum)
    (handler : sighandler_t) :
    answeredBy env hist [Event.signal signum handler (env.signal hist signum handler)] =
      true := by
  simp [answeredBy, answers]

theorem answeredBy_StreamFunc (env : Env γ κ) (hist : List (Event γ κ))
    (config : UvcStreamerCfg γ κ) (shouldExit : StopPredicate) :
    answeredBy env hist
      [Event.StreamFunc config shouldExit (env.StreamFunc hist config shouldExit)] = true := by
  simp [answeredBy, answers]

theorem answeredBy_log (env : Env γ κ) (hist : List (Event γ κ)) (format : String)
    (args : List Int) :
    answeredBy env hist [Event.log format args] = true := rfl

theorem answeredBy_ite_log (env : Env γ κ) (hist : List (Event γ κ)) (c : Prop)
    [Decidable c] (format : String) (args : List Int) :
    answeredBy env hist (if c then [Event.log format args] else []) = true := by
  split_ifs <;> rfl

theorem answeredBy_ite_log_log (env : Env γ κ) (hist : List (Event γ κ)) (c : Prop)
    [Decidable c] (f g : String) (a b : List Int) :
    answeredBy env hist [if c then Event.log f a else Event.log g b] = true := by
  split_ifs <;> rfl

/-- The calls a run of `SetupCamera` adds carry the answers of the outside
world. -/
theorem SetupCamera_answered (env : Env γ κ) (cameraFd : Int) (w : World γ κ) :
    ∃ emitted : List (Event γ κ),
      (SetupCamera env cameraFd w).2.trace = w.trace ++ emitted ∧
      answeredBy env w.trace emitted = true := by
  simp only [SetupCamera, ioctl, trace_ite_Log, trace_ite_Log_Log, List.append_assoc]
  refine ⟨_, rfl, ?_⟩
  simp only [answeredBy_append, answeredBy_ioctl, answeredBy_ite_log, answeredBy_ite_log_log,
    List.append_assoc, Bool.and_self]

/-- The calls a run of `main` on a valid configuration adds carry the answers
of the outside world. -/
theorem main_answered (env : Env γ κ) (argv : List String) (w : World γ κ)
    (hv : (env.GetConfig argv).IsValid = true) :
    ∃ emitted : List (Event γ κ),
      (main env argv w).2.trace = w.trace ++ emitted ∧
      answeredBy env w.trace emitted = true := by
  simp only [main, hv, signal, StreamFunc, trace_ite_Log, trace_Log, Bool.not_true,
    Bool.false_eq_true, if_false, List.append_assoc]
  refine ⟨_, rfl, ?_⟩
  simp only [answeredBy_append, answeredBy_signal, answeredBy_StreamFunc, answeredBy_log,
    answeredBy_ite_log, List.append_assoc, Bool.and_self]

/-- C1: `SetupCamera` returns `true` for every descriptor, every state it is
called in and every answer of the driver to its ioctl calls. -/
theorem SetupCamera_returns_true (env : Env γ κ) (cameraFd : Int) (w : World γ κ) :
    (SetupCamera env cameraFd w).1 = true := by
  simp only [SetupCamera]

/-- C2: whatever the driver answers, the ioctl calls `SetupCamera` adds to the
trace are exactly the six calibration requests, all on the descriptor it was
given, in the fixed order and with the fixed values. -/
theorem SetupCamera_ioctl_calls (env : Env γ κ) (cameraFd : Int) (w : World γ κ) :
    ioctlCalls (SetupCamera env cameraFd w).2.trace =
      ioctlCalls w.trace ++ calibrationRequests.map fun request => (cameraFd, request) := by
  obtain ⟨r1, r2, r3, r4, r5, r6, ht, _⟩ := SetupCamera_trace env cameraFd w
  rw [ht, ioctlCalls_append, ioctlCalls_calibrationTrace]

/-- C3: a call of `IsSigIntRaised` made after any sequence of handler
invocations and polls, started in the initial state, returns `true` exactly
when the sequence holds an invocation of `sigIntHandler`, whatever its signal
number; the first poll of a process returns `false`, a poll leaves the state
as it found it, and a poll that returned `true` is followed by `true` only. -/
theorem stop_flag_latch (γ κ : Type) (steps : List Step) :
    (pollAfter γ κ steps = true ↔ ∃ sig, Step.sigIntHandler sig ∈ steps) ∧
      pollAfter γ κ [] = false ∧
      (∀ w : World γ κ, (IsSigIntRaised w).2 = w) ∧
      (∀ more : List Step,
        pollAfter γ κ steps = true → pollAfter γ κ (steps ++ more) = true) := by
  have key : ∀ l : List Step, pollAfter γ κ l = true ↔ ∃ sig, Step.sigIntHandler sig ∈ l := by
    intro l
    have h := flag_runSteps l (World.initial γ κ)
    simpa [pollAfter, IsSigIntRaised, World.initial] using h
  refine ⟨key steps, rfl, fun _ => rfl, ?_⟩
  intro more h
  obtain ⟨sig, hsig⟩ := (key steps).1 h
  exact (key (steps ++ more)).2 ⟨sig, List.mem_append_left more hsig⟩

/-- C3 at a sample run: poll, then the handler for signal 2, then a poll. -/
theorem stop_flag_latch_witness :
    pollAfter Unit Unit [Step.IsSigIntRaised, Step.sigIntHandler 2] = true ∧
      pollAfter Unit Unit
        ([Step.IsSigIntRaised, Step.sigIntHandler 2] ++ [Step.IsSigIntRaised]) = true :=
  ⟨by decide,
    (stop_flag_latch Unit Unit [Step.IsSigIntRaised, Step.sigIntHandler 2]).2.2.2
      [Step.IsSigIntRaised] (by decide)⟩

/-- C4: on a valid configuration `main` makes one call of
`UvcStreamer::StreamFunc` and returns the very integer that call returned,
whatever the integer and whatever the signal registrations returned. -/
theorem main_returns_stream_result (env : Env γ κ) (argv : List String) (w : World γ κ)
    (hv : (env.GetConfig argv).IsValid = true) :
    streamResults (main env argv w).2.trace =
      streamResults w.trace ++ [(main env argv w).1.ret] := by
  obtain ⟨o1, o2, o3, res, ht, hret, _, _⟩ := main_valid env argv w hv
  rw [ht, hret, streamResults_append, streamResults_streamingTrace]

/-- C4 at the sample world. -/
theorem main_returns_stream_result_witness :
    (sampleEnv.GetConfig ["uvc2http"]).IsValid = true ∧
      streamResults (main sampleEnv ["uvc2http"] (World.initial Unit Unit)).2.trace =
        streamResults (World.initial Unit Unit).trace ++
          [(main sampleEnv ["uvc2http"] (World.initial Unit Unit)).1.ret] :=
  ⟨by decide,
    main_returns_stream_result sampleEnv ["uvc2http"] (World.initial Unit Unit) (by decide)⟩

/-- C5: on a valid configuration `main` calls `UvcStreamer::StreamFunc` once,
with `IsSigIntRaised` as stop predicate and with a configuration whose setup
callback is `SetupCamera` and whose other fields are those `GetConfig`
returned; the local configuration of `main` still has that value when `main`
returns. -/
theorem main_stream_call (env : Env γ κ) (argv : List String) (w : World γ κ)
    (hv : (env.GetConfig argv).IsValid = true) :
    ∃ passed : UvcStreamerCfg γ κ,
      streamCalls (main env argv w).2.trace =
        streamCalls w.trace ++ [(passed, StopPredicate.IsSigIntRaised)] ∧
      passed.GrabberCfg.SetupCamera = CameraSetupFn.SetupCamera ∧
      passed.IsValid = (env.GetConfig argv).IsValid ∧
      passed.GrabberCfg.others = (env.GetConfig argv).GrabberCfg.others ∧
      passed.others = (env.GetConfig argv).others ∧
      (main env argv w).1.config = passed := by
  obtain ⟨o1, o2, o3, res, ht, _, hcfg, _⟩ := main_valid env argv w hv
  refine ⟨installed (env.GetConfig argv), ?_, rfl, rfl, rfl, rfl, hcfg⟩
  rw [ht, streamCalls_append, streamCalls_streamingTrace]

/-- C5 at the sample world. -/
theorem main_stream_call_witness :
    (sampleEnv.GetConfig ["uvc2http"]).IsValid = true ∧
      ∃ passed : UvcStreamerCfg Unit Unit,
        streamCalls (main sampleEnv ["uvc2http"] (World.initial Unit Unit)).2.trace =
          streamCalls (World.initial Unit Unit).trace ++
            [(passed, StopPredicate.IsSigIntRaised)] ∧
        passed.GrabberCfg.SetupCamera = CameraSetupFn.SetupCamera ∧
        passed.IsValid = (sampleEnv.GetConfig ["uvc2http"]).IsValid ∧
        passed.GrabberCfg.others = (sampleEnv.GetConfig ["uvc2http"]).GrabberCfg.others ∧
        passed.others = (sampleEnv.GetConfig ["uvc2http"]).others ∧
        (main sampleEnv ["uvc2http"] (World.initial Unit Unit)).1.config = passed :=
  ⟨by decide, main_stream_call sampleEnv ["uvc2http"] (World.initial Unit Unit) (by decide)⟩

/-- C6: on an invalid configuration `main` returns -1 after one call of
`PrintUsage` and nothing else: no call of `UvcStreamer::StreamFunc`, no signal
registration, and its local configuration is still the one `GetConfig`
returned, without the setup callback installed. -/
theorem main_invalid_config (env : Env γ κ) (argv : List String) (w : World γ κ)
    (hv : (env.GetConfig argv).IsValid = false) :
    (main env argv w).1.ret = -1 ∧
      (main env argv w).2.trace = w.trace ++ [Event.PrintUsage] ∧
      streamCalls (main env argv w).2.trace = streamCalls w.trace ∧
      signalCalls (main env argv w).2.trace = signalCalls w.trace ∧
      (main env argv w).1.config = env.GetConfig argv := by
  rw [main_invalid env argv w hv]
  refine ⟨rfl, rfl, ?_, ?_, rfl⟩
  · simp [streamCalls]
  · simp [signalCalls]

/-- C6 at the sample world, on an empty command line. -/
theorem main_invalid_config_witness :
    (sampleEnv.GetConfig []).IsValid = false ∧
      ((main sampleEnv [] (World.initial Unit Unit)).1.ret = -1 ∧
        (main sampleEnv [] (World.initial Unit Unit)).2.trace =
          (World.initial Unit Unit).trace ++ [Event.PrintUsage] ∧
        streamCalls (main sampleEnv [] (World.initial Unit Unit)).2.trace =
          streamCalls (World.initial Unit Unit).trace ∧
        signalCalls (main sampleEnv [] (World.initial Unit Unit)).2.trace =
          signalCalls (World.initial Unit Unit).trace ∧
        (main sampleEnv [] (World.initial Unit Unit)).1.config = sampleEnv.GetConfig []) :=
  ⟨by decide, main_invalid_config sampleEnv [] (World.initial Unit Unit) (by decide)⟩

/-- C7: every run of `SetupCamera`, for every descriptor, start state and
outside world, adds calls that carry the answers of the driver, among them
exactly six ioctl results `r1`, ..., `r6`, and logs, each with its line end,
the failure messages of exactly those extended requests whose result is
non-zero, in request order, followed by the failure message of the gain
request when `r6` is non-zero and by "Set sensor gain to 32." when it is zero,
and nothing else; so the log of the run holds as many failure messages as
requests failed. -/
theorem SetupCamera_logged (env : Env γ κ) (cameraFd : Int) (w : World γ κ) :
    ∃ (r1 r2 r3 r4 r5 r6 : Int) (emitted : List (Event γ κ)),
      (SetupCamera env cameraFd w).2.trace = w.trace ++ emitted ∧
      answeredBy env w.trace emitted = true ∧
      ioctlResults emitted = [r1, r2, r3, r4, r5, r6] ∧
      logged emitted = (calibrationMessages r1 r2 r3 r4 r5 r6).map withLineEnd ∧
      ((logged emitted).filter isFailureLine).length =
        ([r1, r2, r3, r4, r5, r6].filter fun r => r ≠ 0).length := by
  obtain ⟨r1, r2, r3, r4, r5, r6, ht, _⟩ := SetupCamera_trace env cameraFd w
  obtain ⟨emitted, he, ha⟩ := SetupCamera_answered env cameraFd w
  have hem : emitted = calibrationTrace cameraFd r1 r2 r3 r4 r5 r6 :=
    List.append_cancel_left (he.symm.trans ht)
  subst hem
  refine ⟨r1, r2, r3, r4, r5, r6, _, ht, ha, ioctlResults_calibrationTrace _ _ _ _ _ _ _,
    logged_calibrationTrace _ _ _ _ _ _ _, ?_⟩
  rw [logged_calibrationTrace]
  exact failure_count_calibrationMessages r1 r2 r3 r4 r5 r6

/-- C8: on a valid configuration the signal registrations and streaming calls
of `main` are, in this order, `SIGPIPE` to `SIG_IGN`, `SIGINT` to
`sigIntHandler`, `SIGTERM` to `sigIntHandler`, and then the one streaming call,
with no registration after it; and `sigIntHandler` sets the stop flag for
every signal number. -/
theorem main_milestones (env : Env γ κ) (argv : List String) (w : World γ κ)
    (hv : (env.GetConfig argv).IsValid = true) :
    milestones (main env argv w).2.trace =
        milestones w.trace ++
          [ Milestone.registration .SIGPIPE .SIG_IGN,
            Milestone.registration .SIGINT .sigIntHandler,
            Milestone.registration .SIGTERM .sigIntHandler,
            Milestone.streaming ] ∧
      ∀ (sig : Int) (v : World γ κ), (sigIntHandler sig v).NeedToStopWorkFunc = true := by
  obtain ⟨o1, o2, o3, res, ht, _, _, _⟩ := main_valid env argv w hv
  refine ⟨?_, fun _ _ => rfl⟩
  rw [ht, milestones_append, milestones_streamingTrace]
  rfl

/-- C8 at the sample world. -/
theorem main_milestones_witness :
    (sampleEnv.GetConfig ["uvc2http"]).IsValid = true ∧
      (milestones (main sampleEnv ["uvc2http"] (World.initial Unit Unit)).2.trace =
          milestones (World.initial Unit Unit).trace ++
            [ Milestone.registration .SIGPIPE .SIG_IGN,
              Milestone.registration .SIGINT .sigIntHandler,
              Milestone.registration .SIGTERM .sigIntHandler,
              Milestone.streaming ] ∧
        ∀ (sig : Int) (v : World Unit Unit), (sigIntHandler sig v).NeedToStopWorkFunc = true) :=
  ⟨by decide, main_milestones sampleEnv ["uvc2http"] (World.initial Unit Unit) (by decide)⟩

/-- C9: every run of `main` adds calls that carry the answers of the outside
world; on a valid configuration it holds one call of `UvcStreamer::StreamFunc`
and `main` returns the result of that call, on an invalid configuration it
holds none and `main` returns -1.  So `main` returns zero exactly when the
configuration is valid and the streaming call returned zero, and non-zero
exactly when the configuration is invalid or the streaming call returned
non-zero. -/
theorem main_returns_zero_iff (env : Env γ κ) (argv : List String) (w : World γ κ) :
    ∃ emitted : List (Event γ κ),
      (main env argv w).2.trace = w.trace ++ emitted ∧
      answeredBy env w.trace emitted = true ∧
      (((env.GetConfig argv).IsValid = true ∧
          streamResults emitted = [(main env argv w).1.ret]) ∨
        ((env.GetConfig argv).IsValid = false ∧ streamResults emitted = [] ∧
          (main env argv w).1.ret = -1)) ∧
      ((main env argv w).1.ret = 0 ↔
        ((env.GetConfig argv).IsValid = true ∧ streamResults emitted = [0])) ∧
      ((main env argv w).1.ret ≠ 0 ↔
        ((env.GetConfig argv).IsValid = false ∨
          ∃ res : Int, res ≠ 0 ∧ streamResults emitted = [res])) := by
  cases hv : (env.GetConfig argv).IsValid with
  | false =>
    rw [main_invalid env argv w hv]
    refine ⟨[Event.PrintUsage], rfl, rfl, Or.inr ⟨rfl, rfl, rfl⟩, ?_, ?_⟩
    · simp
    · simp
  | true =>
    obtain ⟨o1, o2, o3, res, ht, hret, _, _⟩ := main_valid env argv w hv
    obtain ⟨emitted, he, ha⟩ := main_answered env argv w hv
    have hem : emitted = streamingTrace (env.GetConfig argv) o1 o2 o3 res :=
      List.append_cancel_left (he.symm.trans ht)
    subst hem
    have hs := streamResults_streamingTrace (env.GetConfig argv) o1 o2 o3 res
    refine ⟨_, ht, ha, Or.inl ⟨rfl, ?_⟩, ?_, ?_⟩
    · rw [hs, hret]
    · rw [hs, hret]
      simp
    · rw [hs, hret]
      simp

theorem sample_calibration_results :
    ioctlResults (SetupCamera sampleEnv 3 (World.initial Unit Unit)).2.trace =
      [0, -1, 0, 0, 0, 0] := by
  decide

theorem sample_calibration_log :
    logged (SetupCamera sampleEnv 3 (World.initial Unit Unit)).2.trace =
      ["Failed to set focus range.\n", "Set sensor gain to 32.\n"] := by
  decide

theorem sample_main_results :
    signalResults (main sampleEnv ["uvc2http"] (World.initial Unit Unit)).2.trace =
        [.SIG_DFL, .SIG_ERR, .SIG_DFL] ∧
      streamResults (main sampleEnv ["uvc2http"] (World.initial Unit Unit)).2.trace = [0] ∧
      (main sampleEnv ["uvc2http"] (World.initial Unit Unit)).1.ret = 0 ∧
      (main sampleEnv [] (World.initial Unit Unit)).1.ret = -1 := by
  decide

theorem sample_main_log :
    logged (main sampleEnv ["uvc2http"] (World.initial Unit Unit)).2.trace =
      ["Failed to setup SIGINT handler.\n", "Starting streaming...\n",
        "Streaming stopped with code 0.\n"] := by
  decide

end Uvc2Http
